import Mathlib

/-!
# Verification of the edu4ai backend safety and chat pipeline

Shallow embedding of:
* `src/backend/src/services/SafetyService.ts` (`SafetyService.validateContent`
  and its helpers),
* `src/backend/src/services/AIService.ts` (`AIService.generateResponse`),
* `src/backend/src/controllers/ChatController.ts` (`ChatController.sendMessage`),
* the default configuration values of `src/backend/src/config/config.ts`.

Conventions of the embedding:
* JS numbers on the safety path are modelled as rationals (`ℚ`); all the
  constants involved (1.0, 0.5, 0.3, 0.1, 0.2, 0.8, 0.7) are decimal literals
  and the claims are about the algebraic structure of the computation.
* JS `string.length` counts UTF-16 code units and Lean `String.length` counts
  characters; they agree on the ASCII strings used throughout.
* `String.prototype.toLowerCase` is modelled by `jsToLower`
  (they agree on ASCII, which covers the configured keyword lists).
* The regular expressions of `SafetyService` are embedded as executable
  token-sequence matchers (`Tok`, `matchToks`) whose semantics matches the
  JS regexes on the pattern shapes the service actually uses
  (literals, `\s+`, `\s*`, `\d+`, `.*`, `.?`, `^`, `$` with `m`, `\b`).
-/

/-- JS `\s` whitespace class (ECMA-262 WhiteSpace ∪ LineTerminator). -/
def isJsWS (c : Char) : Bool :=
  c = ' ' || c = '\t' || c = '\n' || c = '\r' || c = '\x0b' || c = '\x0c' ||
  c = '\u00a0' || c = '\u1680' ||
  ('\u2000' ≤ c && c ≤ '\u200a') ||
  c = '\u2028' || c = '\u2029' || c = '\u202f' || c = '\u205f' ||
  c = '\u3000' || c = '\ufeff'

/-- JS `\w` word character class `[A-Za-z0-9_]`. -/
def isWordChar (c : Char) : Bool :=
  ('a' ≤ c && c ≤ 'z') || ('A' ≤ c && c ≤ 'Z') || ('0' ≤ c && c ≤ '9') || c = '_'

/-- JS `\d` digit class `[0-9]`. -/
def isJsDigit (c : Char) : Bool :=
  '0' ≤ c && c ≤ '9'

/-- Does `sub` occur as a contiguous run inside `cs`? -/
def listIncludes (sub : List Char) : List Char → Bool
  | [] => sub.isEmpty
  | c :: cs => sub.isPrefixOf (c :: cs) || listIncludes sub cs

/-- JS `String.prototype.includes`: `sub` occurs as a contiguous substring. -/
def jsIncludes (s sub : String) : Bool :=
  listIncludes sub.data s.data

/-- One token of an embedded regular expression. -/
inductive Tok where
  /-- Token for a literal character sequence. -/
  | lit : List Char → Tok
  /-- Token for `\s+`. -/
  | wsPlus : Tok
  /-- Token for `\s*`. -/
  | wsStar : Tok
  /-- Token for `\d+`. -/
  | digPlus : Tok
  /-- Token for `.*` (any characters except line terminators). -/
  | anyStar : Tok
  /-- Token for `.?` (at most one character, not a line terminator). -/
  | anyOpt : Tok
  /-- Token for `\b` at the current position, looking right: end of input or a
      non-word character (the look-left half is handled by the searcher) -/
  | bdryR : Tok
deriving DecidableEq, Repr

/-- A character `.` may match: anything but a JS line terminator. -/
def isDotChar (c : Char) : Bool :=
  !(c = '\n' || c = '\r' || c = '\u2028' || c = '\u2029')

/-- Fuel-indexed matcher core.  Every recursive call strictly decreases
`cs.length + toks.length`, so fuel `cs.length + toks.length + 1` (supplied by
`matchToks` below) is never exhausted; the explicit fuel only serves to make
the recursion structural. -/
def matchToksGo (atEnd : Bool) : Nat → List Tok → List Char → Bool
  | 0, _, _ => false
  | _ + 1, [], cs => !atEnd || cs.isEmpty
  | fuel + 1, .lit l :: rest, cs =>
      l.isPrefixOf cs && matchToksGo atEnd fuel rest (cs.drop l.length)
  | _ + 1, .wsPlus :: _rest, [] => false
  | fuel + 1, .wsPlus :: rest, c :: cs =>
      isJsWS c && matchToksGo atEnd fuel (.wsStar :: rest) cs
  | fuel + 1, .wsStar :: rest, [] => matchToksGo atEnd fuel rest []
  | fuel + 1, .wsStar :: rest, c :: cs =>
      matchToksGo atEnd fuel rest (c :: cs) ||
      (isJsWS c && matchToksGo atEnd fuel (.wsStar :: rest) cs)
  | _ + 1, .digPlus :: _rest, [] => false
  | fuel + 1, .digPlus :: rest, c :: cs =>
      isJsDigit c &&
        (matchToksGo atEnd fuel rest cs || matchToksGo atEnd fuel (.digPlus :: rest) cs)
  | fuel + 1, .anyStar :: rest, [] => matchToksGo atEnd fuel rest []
  | fuel + 1, .anyStar :: rest, c :: cs =>
      matchToksGo atEnd fuel rest (c :: cs) ||
      (isDotChar c && matchToksGo atEnd fuel (.anyStar :: rest) cs)
  | fuel + 1, .anyOpt :: rest, [] => matchToksGo atEnd fuel rest []
  | fuel + 1, .anyOpt :: rest, c :: cs =>
      matchToksGo atEnd fuel rest (c :: cs) ||
      (isDotChar c && matchToksGo atEnd fuel rest cs)
  | fuel + 1, .bdryR :: rest, [] => matchToksGo atEnd fuel rest []
  | fuel + 1, .bdryR :: rest, c :: cs =>
      !isWordChar c && matchToksGo atEnd fuel rest (c :: cs)

/-- Does the token sequence `toks` match some prefix of `cs`?  When
`atEnd = true` the whole of `cs` must be consumed (an `$` anchor). -/
def matchToks (atEnd : Bool) (toks : List Tok) (cs : List Char) : Bool :=
  matchToksGo atEnd (cs.length + toks.length + 1) toks cs

/-- Unanchored search: does `toks` match starting at some position of `cs`? -/
def searchToks (toks : List Tok) : List Char → Bool
  | [] => matchToks false toks []
  | c :: cs => matchToks false toks (c :: cs) || searchToks toks cs

/-- Search for `\b(alt₁|…|altₙ)\b`: some alternative matches at a position
whose left neighbour (if any) is a non-word character; each alternative
carries `.bdryR` at its end for the right boundary. -/
def searchWordBounded (alts : List (List Tok)) : Bool → List Char → Bool
  | prevWord, [] =>
      !prevWord && alts.any fun a => matchToks false (a ++ [.bdryR]) []
  | prevWord, c :: cs =>
      (!prevWord && alts.any fun a => matchToks false (a ++ [.bdryR]) (c :: cs)) ||
      searchWordBounded alts (isWordChar c) cs

/-- Convenience: literal token from a string. -/
def L (s : String) : Tok := .lit s.data

/-- JS `String.prototype.toLowerCase`, modelled characterwise (agrees with
it on ASCII, which covers the configured keyword lists). -/
def jsToLower (s : String) : String :=
  ⟨s.data.map Char.toLower⟩

/-- JS line terminators, the characters at which `^`/`$` with the `m` flag
anchor. -/
def isLineTerm (c : Char) : Bool :=
  c = '\n' || c = '\r' || c = '\u2028' || c = '\u2029'

/-- Split a character list at every line terminator (each terminator ends a
line; adjacent terminators produce empty lines, as JS multiline anchors do). -/
def splitLines : List Char → List (List Char)
  | [] => [[]]
  | c :: cs =>
    if isLineTerm c then [] :: splitLines cs
    else
      match splitLines cs with
      | [] => [[c]]
      | l :: ls => (c :: l) :: ls

/-! ## SafetyService (src/backend/src/services/SafetyService.ts) -/

/-- The part of `config` (src/backend/src/config/config.ts) that the safety
and chat pipeline reads. -/
structure Config where
  defaultAiProvider : String
  minSafetyScore : ℚ
  blockedKeywords : List String
  educationalTopics : List String
deriving DecidableEq, Repr

/-- The default configuration values from `config.ts` when no environment
variables override them (`MIN_SAFETY_SCORE` default 70, divided by 100). -/
def defaultConfig : Config where
  defaultAiProvider := "openai"
  minSafetyScore := 0.7
  blockedKeywords := ["inappropriate", "harmful", "dangerous"]
  educationalTopics := ["math", "science", "literature", "history", "programming", "language"]

/-- JS `Math.max` on rationals, written with an explicit comparison so that
it evaluates by kernel reduction. -/
def mathMax (a b : ℚ) : ℚ := if a ≤ b then b else a

/-- Result record of `SafetyService.validateContent`.  The TS interface makes
`issues`/`suggestions` optional and the service returns `undefined` in place
of an empty array; we model both as plain lists, `[]` standing for absent. -/
structure SafetyValidation where
  isValid : Bool
  safetyScore : ℚ
  issues : List String
  suggestions : List String
deriving DecidableEq, Repr

/-- Embedding of `SafetyService.findBlockedKeywords`: the configured keywords (lowercased
in the constructor, deduplicated by the `Set`) that occur in the content. -/
def findBlockedKeywords (cfg : Config) (content : String) : List String :=
  ((cfg.blockedKeywords.map jsToLower).dedup).filter fun k => jsIncludes content k

/-- Literal `educationalKeywords` list of `SafetyService.isEducationalContent`. -/
def educationalKeywords : List String :=
  ["learn", "study", "understand", "explain", "how", "why", "what",
   "solve", "calculate", "define", "describe", "analyze", "compare",
   "example", "concept", "theory", "practice", "homework", "assignment",
   "question", "problem", "formula", "equation", "method", "step"]

/-- Literal `subjectIndicators` list of `SafetyService.isEducationalContent`. -/
def subjectIndicators : List String :=
  ["equation", "solve", "calculate", "mathematics", "algebra", "geometry",
   "calculus", "statistics", "probability", "theorem", "proof",
   "experiment", "hypothesis", "theory", "molecule", "atom", "chemistry",
   "physics", "biology", "evolution", "ecosystem", "cell", "DNA",
   "grammar", "sentence", "paragraph", "essay", "literature", "poem",
   "metaphor", "symbolism", "character", "plot", "theme",
   "historical", "century", "war", "revolution", "civilization", "culture",
   "empire", "democracy", "constitution",
   "code", "function", "variable", "algorithm", "programming", "software",
   "debug", "syntax", "loop", "array", "object"]

/-- Embedding of `SafetyService.isEducationalContent` (called on the lowercased content):
any educational keyword, configured topic, or subject indicator occurs. -/
def isEducationalContent (cfg : Config) (content : String) : Bool :=
  educationalKeywords.any (fun k => jsIncludes content k) ||
  (cfg.educationalTopics.map jsToLower).any (fun t => jsIncludes content t) ||
  subjectIndicators.any (fun k => jsIncludes content k)

/-- Embedding of the six start-anchored homework regexes
`/^solve\s+this/i` … `/^give\s+me\s+the\s+solution/i`. -/
def homeworkStartPatterns : List (List Tok) :=
  [[L "solve", .wsPlus, L "this"],
   [L "answer", .wsPlus, L "this"],
   [L "what", .wsPlus, L "is", .wsPlus, L "the", .wsPlus, L "answer", .wsPlus, L "to"],
   [L "do", .wsPlus, L "my", .wsPlus, L "homework"],
   [L "complete", .wsPlus, L "this", .wsPlus, L "for", .wsPlus, L "me"],
   [L "give", .wsPlus, L "me", .wsPlus, L "the", .wsPlus, L "solution"]]

/-- Embedding of the numbered-question regex `/^\d+\.\s*.*\?\s*$/m`. -/
def numberedQuestionToks : List Tok :=
  [.digPlus, L ".", .wsStar, .anyStar, L "?", .wsStar]

/-- Embedding of the four unanchored homework regexes `/chapter\s+\d+.*exercise/i`,
`/assignment\s+\d+/i`, `/due\s+tomorrow/i`, `/test\s+tomorrow/i`. -/
def homeworkSearchPatterns : List (List Tok) :=
  [[L "chapter", .wsPlus, .digPlus, .anyStar, L "exercise"],
   [L "assignment", .wsPlus, .digPlus],
   [L "due", .wsPlus, L "tomorrow"],
   [L "test", .wsPlus, L "tomorrow"]]

/-- Embedding of `SafetyService.detectHomeworkPattern`: some homework regex matches.  The
`/i` flag is modelled by lowercasing the content (all pattern literals are
lowercase; the one flag-less pattern is case-neutral). -/
def detectHomeworkPattern (content : String) : Bool :=
  let cs := (jsToLower content).data
  homeworkStartPatterns.any (fun p => matchToks false p cs) ||
  (splitLines cs).any (fun l => matchToks true numberedQuestionToks l) ||
  homeworkSearchPatterns.any (fun p => searchToks p cs)

/-- Embedding of the six word-bounded dangerous-content regexes of
`SafetyService.detectDangerousContent`, one alternation per entry. -/
def dangerousPatterns : List (List (List Tok)) :=
  [[[L "kill"], [L "murder"], [L "suicide"],
    [L "self", .anyOpt, L "harm"], [L "hurt", .anyStar, L "yourself"]],
   [[L "bomb"], [L "explosive"], [L "weapon"], [L "gun"], [L "knife"]],
   [[L "drugs"], [L "illegal", .anyStar, L "substance"],
    [L "steal"], [L "rob"], [L "fraud"]],
   [[L "hack"], [L "crack"], [L "pirate"], [L "bypass", .anyStar, L "security"]],
   [[L "adult", .anyStar, L "content"], [L "sexual"], [L "explicit"]],
   [[L "home", .anyStar, L "address"], [L "phone", .anyStar, L "number"],
    [L "social", .anyStar, L "security"], [L "credit", .anyStar, L "card"]]]

/-- Embedding of `SafetyService.detectDangerousContent`: some dangerous regex matches
(with `/i`, modelled by lowercasing; the service passes the already
lowercased content, on which `toLower` is the identity). -/
def detectDangerousContent (content : String) : Bool :=
  let cs := (jsToLower content).data
  dangerousPatterns.any fun g => searchWordBounded g false cs

/-- Embedding of `SafetyService.validateContent`.  The five sequential `safetyScore -=`
updates followed by `Math.max(0, safetyScore)` are written as one clamped
difference; the `issues`/`suggestions` pushes are concatenated in the same
order as in the source. -/
def validateContent (cfg : Config) (content : String) : SafetyValidation :=
  let contentLower := jsToLower content
  let foundBlockedKeywords := findBlockedKeywords cfg contentLower
  let blockedHit := !foundBlockedKeywords.isEmpty
  let isEducational := isEducationalContent cfg contentLower
  let tooLong := content.length > 2000
  let isHomeworkPattern := detectHomeworkPattern content
  let hasDangerousContent := detectDangerousContent contentLower
  let safetyScore : ℚ :=
    mathMax 0 (1.0
      - (if blockedHit then 0.5 else 0)
      - (if !isEducational then 0.3 else 0)
      - (if tooLong then 0.1 else 0)
      - (if isHomeworkPattern then 0.2 else 0)
      - (if hasDangerousContent then 0.8 else 0))
  let issues : List String :=
    (if blockedHit then
      ["Contains inappropriate content: " ++ String.intercalate ", " foundBlockedKeywords]
     else []) ++
    (if !isEducational then ["Content does not appear to be educational"] else []) ++
    (if tooLong then ["Content is too long"] else []) ++
    (if isHomeworkPattern then ["This appears to be a homework question"] else []) ++
    (if hasDangerousContent then ["Content may be harmful or dangerous"] else [])
  let suggestions : List String :=
    (if blockedHit then
      ["Please rephrase your question focusing on educational content."] else []) ++
    (if !isEducational then
      ["Please ask questions related to academic subjects like math, science, literature, or other learning topics."]
     else []) ++
    (if tooLong then ["Please shorten your question to be more specific."] else []) ++
    (if isHomeworkPattern then
      ["Instead of asking for the answer, ask how to approach the problem or explain concepts you need help understanding."]
     else []) ++
    (if hasDangerousContent then ["Please focus on safe, educational topics."] else [])
  { isValid := decide (cfg.minSafetyScore ≤ safetyScore) && issues.isEmpty
    safetyScore := safetyScore
    issues := issues
    suggestions := suggestions }

/-! ## AIService (src/backend/src/services/AIService.ts) -/

/-- The fields of the TS `AIRequest` that steer the verified control flow
(`context`, `maxTokens`, `temperature` are passed through to the provider
and are absorbed into the provider oracle). -/
structure AIRequest where
  message : String
  provider : Option String
deriving DecidableEq, Repr

/-- The fields of the TS `AIResponse` that the pipeline inspects or stores
(`model`, `tokens`, `processingTime` are provider metadata / wall-clock). -/
structure AIResponse where
  content : String
  provider : String
  safetyScore : ℚ
deriving DecidableEq, Repr

/-- The errors `AIService.generateResponse` can throw. -/
inductive GenErr where
  /-- Error `Content blocked: …` on input safety failure. -/
  | contentBlocked : List String → GenErr
  /-- Error thrown inside a `generate*Response` provider call. -/
  | providerError : String → GenErr
  /-- Error `Unknown AI provider: …` from the `switch` default. -/
  | unknownProvider : String → GenErr
  /-- Error `Generated response failed safety check`. -/
  | responseSafetyFailed : GenErr
deriving DecidableEq, Repr

/-- Message string carried by each `GenErr`, as thrown by the source. -/
def GenErr.message : GenErr → String
  | .contentBlocked issues => "Content blocked: " ++ String.intercalate ", " issues
  | .providerError m => m
  | .unknownProvider p => "Unknown AI provider: " ++ p
  | .responseSafetyFailed => "Generated response failed safety check"

/-- Embedding of `AIService.applyEducationalContext`: append the learning tip when the
content exceeds 1000 characters, then the study suggestion when the
(possibly extended) content contains a code fence or formula marker. -/
def applyEducationalContext (content : String) : String :=
  let content :=
    if content.length > 1000 then
      content ++ "\n\nüí° **Learning Tip**: Take your time to understand each concept before moving to the next one. Feel free to ask follow-up questions if anything is unclear!"
    else content
  if jsIncludes content "```" || jsIncludes content "$$" then
    content ++ "\n\nüîç **Study Suggestion**: Try working through this example step by step. Understanding the process is more important than memorizing the result."
  else content

/-- The provider `switch` of `AIService.generateResponse`: the three
`generate*Response` calls are abstracted into `oracle` (mapping a provider
name to the raw generated content, or to the message of whatever error the
provider path threw); any other name hits the `default` case. -/
def rawProviderCall (oracle : String → Except String String) (provider : String) :
    Except GenErr String :=
  if provider = "openai" || provider = "anthropic" || provider = "google" then
    match oracle provider with
    | .ok content => .ok content
    | .error e => .error (.providerError e)
  else
    .error (.unknownProvider provider)

/-- The body of the `try` block of `AIService.generateResponse` for one
provider: provider call, `applyEducationalContext`, response safety check
(the response's `safetyScore` is overwritten with the check's score before
validity is tested, as in the source). -/
def tryProvider (cfg : Config) (oracle : String → Except String String)
    (provider : String) : Except GenErr AIResponse :=
  match rawProviderCall oracle provider with
  | .error e => .error e
  | .ok raw =>
    let content := applyEducationalContext raw
    let responseSafetyCheck := validateContent cfg content
    if responseSafetyCheck.isValid then
      .ok { content := content, provider := provider,
            safetyScore := responseSafetyCheck.safetyScore }
    else
      .error .responseSafetyFailed

/-- The `AIService.generateResponse` pipeline for a call whose effective
provider is the configured default.  For such a call the `catch` branch
cannot recurse (the fallback is guarded by `provider !==
config.defaultAiProvider`), so the error propagates; this function is the
source body specialised to that case.  `generateResponse` below delegates
its one recursive call (which always sets `provider` to the default) to this
specialisation, and `generateResponse_defaultCall_eq` proves the
specialisation agrees with the general function at the default provider, so
the pair faithfully models the recursive source function.  The second
component is the list of providers attempted, in order. -/
def generateResponseDefault (cfg : Config) (oracle : String → Except String String)
    (message : String) : Except GenErr AIResponse × List String :=
  let safetyCheck := validateContent cfg message
  if safetyCheck.isValid then
    match tryProvider cfg oracle cfg.defaultAiProvider with
    | .ok r => (.ok r, [cfg.defaultAiProvider])
    | .error e => (.error e, [cfg.defaultAiProvider])
  else
    (.error (.contentBlocked safetyCheck.issues), [])

/-- Embedding of `AIService.generateResponse`: input safety check (outside the `try`, so
its failure never triggers fallback), one provider attempt, and on any error
from the `try` block a single recursive fallback to the default provider iff
the attempted provider was not already the default.  Returns the result
together with the list of providers attempted, in order. -/
def generateResponse (cfg : Config) (oracle : String → Except String String)
    (req : AIRequest) : Except GenErr AIResponse × List String :=
  let safetyCheck := validateContent cfg req.message
  if safetyCheck.isValid then
    let provider := req.provider.getD cfg.defaultAiProvider
    match tryProvider cfg oracle provider with
    | .ok r => (.ok r, [provider])
    | .error e =>
      if provider = cfg.defaultAiProvider then
        (.error e, [provider])
      else
        let fb := generateResponseDefault cfg oracle req.message
        (fb.1, provider :: fb.2)
  else
    (.error (.contentBlocked safetyCheck.issues), [])

/-! ## ChatController (src/backend/src/controllers/ChatController.ts) -/

/-- Message role (prisma `Role`). -/
inductive Role where
  | user
  | assistant
deriving DecidableEq, Repr

/-- A row written to the `message` table by `ChatController.sendMessage`,
restricted to the fields the claims are about. -/
structure StoredMessage where
  role : Role
  content : String
  safetyScore : ℚ
deriving DecidableEq, Repr

/-- Observable outcome of one `ChatController.sendMessage` call: the HTTP
response (status, `success`, returned content / error message /
issues & suggestions / safety score) and, as logs, the messages persisted
and the providers attempted.  Database writes are modelled as the `stored`
log and assumed not to throw. -/
structure ChatOutcome where
  status : Nat
  success : Bool
  content : Option String
  errorMessage : Option String
  issues : List String
  suggestions : List String
  safetyScore : Option ℚ
  stored : List StoredMessage
  providerCalls : List String
deriving DecidableEq, Repr

/-- Zod `chatRequestSchema` checks that the model retains: message
length 1..2000 and, when present, a provider drawn from the enum. -/
def schemaOk (message : String) (provider : Option String) : Bool :=
  1 ≤ message.length && message.length ≤ 2000 &&
  (match provider with
   | none => true
   | some p => p = "openai" || p = "anthropic" || p = "google")

/-- Embedding of `ChatController.sendMessage`: zod validation, input safety validation
(blocked → 400 with issues/suggestions/score, nothing stored, no provider
call), store the user message, `aiService.generateResponse`, store the
assistant message and reply `success:true` — any thrown error is caught and
becomes a 500 with the error's message. -/
def sendMessage (cfg : Config) (oracle : String → Except String String)
    (message : String) (provider : Option String) : ChatOutcome :=
  if schemaOk message provider then
    let safetyValidation := validateContent cfg message
    if safetyValidation.isValid then
      let userMsg : StoredMessage :=
        { role := .user, content := message, safetyScore := safetyValidation.safetyScore }
      match generateResponse cfg oracle { message := message, provider := provider } with
      | (.ok r, tr) =>
        { status := 200, success := true, content := some r.content,
          errorMessage := none, issues := [], suggestions := [],
          safetyScore := some r.safetyScore,
          stored := [userMsg,
            { role := .assistant, content := r.content, safetyScore := r.safetyScore }],
          providerCalls := tr }
      | (.error e, tr) =>
        { status := 500, success := false, content := none,
          errorMessage := some e.message, issues := [], suggestions := [],
          safetyScore := none, stored := [userMsg], providerCalls := tr }
    else
      { status := 400, success := false, content := none,
        errorMessage := some "Message blocked by safety filters",
        issues := safetyValidation.issues,
        suggestions := safetyValidation.suggestions,
        safetyScore := some safetyValidation.safetyScore,
        stored := [], providerCalls := [] }
  else
    { status := 400, success := false, content := none,
      errorMessage := some "Invalid request data", issues := [], suggestions := [],
      safetyScore := none, stored := [], providerCalls := [] }

instance {ε α : Type} [DecidableEq ε] [DecidableEq α] : DecidableEq (Except ε α) := fun x y =>
  match x, y with
  | .ok a, .ok b => if h : a = b then .isTrue (by rw [h]) else .isFalse (by simp [h])
  | .ok _, .error _ => .isFalse (by simp)
  | .error _, .ok _ => .isFalse (by simp)
  | .error e, .error f => if h : e = f then .isTrue (by rw [h]) else .isFalse (by simp [h])

/-! ## Helper lemmas about `validateContent` -/

set_option maxHeartbeats 1000000

/-- Definitional characterisation of the `isValid` field. -/
theorem validateContent_isValid_eq (cfg : Config) (content : String) :
    (validateContent cfg content).isValid =
      (decide (cfg.minSafetyScore ≤ (validateContent cfg content).safetyScore) &&
        (validateContent cfg content).issues.isEmpty) := rfl

/-- Propositional characterisation of the `isValid` field. -/
theorem validateContent_isValid_iff (cfg : Config) (content : String) :
    (validateContent cfg content).isValid = true ↔
      cfg.minSafetyScore ≤ (validateContent cfg content).safetyScore ∧
      (validateContent cfg content).issues = [] := by
  rw [validateContent_isValid_eq]
  simp [List.isEmpty_iff]

/-- Any recorded issue forces `isValid = false`, whatever the score. -/
theorem isValid_eq_false_of_issues_ne_nil (cfg : Config) (content : String)
    (h : (validateContent cfg content).issues ≠ []) :
    (validateContent cfg content).isValid = false := by
  rcases hb : (validateContent cfg content).isValid with _ | _
  · rfl
  · exact absurd ((validateContent_isValid_iff cfg content).mp hb).2 h

/-- Definitional characterisation of the `safetyScore` field. -/
theorem validateContent_safetyScore_eq (cfg : Config) (content : String) :
    (validateContent cfg content).safetyScore =
      mathMax 0 ((1.0 : ℚ)
        - (if (!(findBlockedKeywords cfg (jsToLower content)).isEmpty) = true then 0.5 else 0)
        - (if (!isEducationalContent cfg (jsToLower content)) = true then 0.3 else 0)
        - (if content.length > 2000 then 0.1 else 0)
        - (if detectHomeworkPattern content = true then 0.2 else 0)
        - (if detectDangerousContent (jsToLower content) = true then 0.8 else 0)) := rfl

/-- Definitional characterisation of the `issues` field. -/
theorem validateContent_issues_eq (cfg : Config) (content : String) :
    (validateContent cfg content).issues =
      (if (!(findBlockedKeywords cfg (jsToLower content)).isEmpty) = true then
        ["Contains inappropriate content: " ++
          String.intercalate ", " (findBlockedKeywords cfg (jsToLower content))]
       else []) ++
      (if (!isEducationalContent cfg (jsToLower content)) = true then
        ["Content does not appear to be educational"] else []) ++
      (if content.length > 2000 then ["Content is too long"] else []) ++
      (if detectHomeworkPattern content = true then
        ["This appears to be a homework question"] else []) ++
      (if detectDangerousContent (jsToLower content) = true then
        ["Content may be harmful or dangerous"] else []) := rfl

/-- Definitional characterisation of the `suggestions` field. -/
theorem validateContent_suggestions_eq (cfg : Config) (content : String) :
    (validateContent cfg content).suggestions =
      (if (!(findBlockedKeywords cfg (jsToLower content)).isEmpty) = true then
        ["Please rephrase your question focusing on educational content."] else []) ++
      (if (!isEducationalContent cfg (jsToLower content)) = true then
        ["Please ask questions related to academic subjects like math, science, literature, or other learning topics."]
       else []) ++
      (if content.length > 2000 then ["Please shorten your question to be more specific."] else []) ++
      (if detectHomeworkPattern content = true then
        ["Instead of asking for the answer, ask how to approach the problem or explain concepts you need help understanding."]
       else []) ++
      (if detectDangerousContent (jsToLower content) = true then
        ["Please focus on safe, educational topics."] else []) := rfl

/-- Content that trips none of the five checks is valid with score 1
(provided the configured minimum is at most 1). -/
theorem clean_input_valid (cfg : Config) (content : String)
    (h1 : findBlockedKeywords cfg (jsToLower content) = [])
    (h2 : isEducationalContent cfg (jsToLower content) = true)
    (h3 : ¬ (content.length > 2000))
    (h4 : detectHomeworkPattern content = false)
    (h5 : detectDangerousContent (jsToLower content) = false)
    (hmin : cfg.minSafetyScore ≤ 1) :
    (validateContent cfg content).isValid = true ∧
    (validateContent cfg content).safetyScore = 1 := by
  have hsc : (validateContent cfg content).safetyScore = 1 := by
    rw [validateContent_safetyScore_eq]
    simp [h1, h2, h3, h4, h5, mathMax]
    norm_num
  refine ⟨(validateContent_isValid_iff cfg content).mpr ⟨by rw [hsc]; exact hmin, ?_⟩, hsc⟩
  rw [validateContent_issues_eq]
  simp [h1, h2, h3, h4, h5]

/-- Content with no educational indicator is invalid. -/
theorem nonEducational_invalid (cfg : Config) (content : String)
    (h2 : isEducationalContent cfg (jsToLower content) = false) :
    (validateContent cfg content).isValid = false := by
  refine isValid_eq_false_of_issues_ne_nil cfg content ?_
  rw [validateContent_issues_eq]
  simp [h2, List.append_eq_nil]

/-- A hit on the blocked-keyword list records an issue. -/
theorem issuesOfBlocked_ne_nil (cfg : Config) (content : String)
    (h : findBlockedKeywords cfg (jsToLower content) ≠ []) :
    (validateContent cfg content).issues ≠ [] := by
  rw [validateContent_issues_eq]
  rcases hfound : findBlockedKeywords cfg (jsToLower content) with _ | ⟨a, t⟩
  · exact absurd hfound h
  · simp [hfound]

/-! ## Helper lemmas about the `AIService` pipeline -/

/-- A successful provider attempt returns content that passed the output
safety check, carrying that check's score. -/
theorem tryProvider_ok_valid (cfg : Config) (oracle : String → Except String String)
    (p : String) (r : AIResponse) (h : tryProvider cfg oracle p = .ok r) :
    (validateContent cfg r.content).isValid = true ∧
    r.safetyScore = (validateContent cfg r.content).safetyScore ∧
    r.provider = p := by
  unfold tryProvider at h
  rcases hc : rawProviderCall oracle p with e | raw <;> rw [hc] at h <;> dsimp only at h
  · exact absurd h (by simp)
  · by_cases hv : (validateContent cfg (applyEducationalContext raw)).isValid = true
    · rw [if_pos hv] at h
      injection h with h
      subst h
      exact ⟨hv, rfl, rfl⟩
    · rw [if_neg hv] at h
      exact absurd h (by simp)

/-- A provider attempt whose generated content fails the output safety
check errors with the response-safety error. -/
theorem tryProvider_badContent (cfg : Config) (oracle : String → Except String String)
    (p : String) (raw : String)
    (hp : p = "openai" ∨ p = "anthropic" ∨ p = "google")
    (hok : oracle p = .ok raw)
    (hbad : (validateContent cfg (applyEducationalContext raw)).isValid = false) :
    tryProvider cfg oracle p = .error .responseSafetyFailed := by
  have hraw : rawProviderCall oracle p = .ok raw := by
    unfold rawProviderCall
    rcases hp with h | h | h <;> rw [h] at hok ⊢ <;> simp [hok]
  unfold tryProvider
  rw [hraw]
  dsimp only
  rw [if_neg (by rw [hbad]; exact Bool.false_ne_true)]

/-- On safety-valid input the default-provider pipeline is exactly one
attempt against the default provider. -/
theorem generateResponseDefault_valid_eq (cfg : Config)
    (oracle : String → Except String String) (msg : String)
    (hval : (validateContent cfg msg).isValid = true) :
    generateResponseDefault cfg oracle msg =
      (tryProvider cfg oracle cfg.defaultAiProvider, [cfg.defaultAiProvider]) := by
  unfold generateResponseDefault
  rw [if_pos hval]
  rcases tryProvider cfg oracle cfg.defaultAiProvider with e | r <;> rfl

/-- A request naming the default provider behaves as the default-provider
specialisation (the recursive call of the source). -/
theorem generateResponse_defaultCall_eq (cfg : Config)
    (oracle : String → Except String String) (msg : String) :
    generateResponse cfg oracle { message := msg, provider := some cfg.defaultAiProvider } =
      generateResponseDefault cfg oracle msg := by
  unfold generateResponse generateResponseDefault
  rcases hv : (validateContent cfg msg).isValid <;> simp only [hv, Option.getD_some] <;>
    simp <;> rcases tryProvider cfg oracle cfg.defaultAiProvider with e | r <;> simp

/-- A request naming no provider behaves as the default-provider
specialisation. -/
theorem generateResponse_none_eq (cfg : Config)
    (oracle : String → Except String String) (msg : String) :
    generateResponse cfg oracle { message := msg, provider := none } =
      generateResponseDefault cfg oracle msg := by
  unfold generateResponse generateResponseDefault
  rcases hv : (validateContent cfg msg).isValid <;> simp only [hv, Option.getD_none] <;>
    simp <;> rcases tryProvider cfg oracle cfg.defaultAiProvider with e | r <;> simp

/-- On safety-valid input, a request for a non-default provider is one
attempt against that provider, falling back to the default pipeline on any
error of the attempt. -/
theorem generateResponse_nondefault_eq (cfg : Config)
    (oracle : String → Except String String) (msg p : String)
    (hval : (validateContent cfg msg).isValid = true)
    (hp : p ≠ cfg.defaultAiProvider) :
    generateResponse cfg oracle { message := msg, provider := some p } =
      match tryProvider cfg oracle p with
      | .ok r => (.ok r, [p])
      | .error _ =>
        (tryProvider cfg oracle cfg.defaultAiProvider, [p, cfg.defaultAiProvider]) := by
  unfold generateResponse
  rw [if_pos hval]
  simp only [Option.getD_some]
  rcases tryProvider cfg oracle p with e | r
  · rw [generateResponseDefault_valid_eq cfg oracle msg hval]
    simp [hp]
  · rfl

/-- Whenever `generateResponse` succeeds, the returned content passed the
output safety check and the returned score is that check's score. -/
theorem generateResponse_ok_valid (cfg : Config) (oracle : String → Except String String)
    (req : AIRequest) (r : AIResponse) (tr : List String)
    (h : generateResponse cfg oracle req = (.ok r, tr)) :
    (validateContent cfg r.content).isValid = true ∧
    r.safetyScore = (validateContent cfg r.content).safetyScore := by
  unfold generateResponse at h
  by_cases hval : (validateContent cfg req.message).isValid = true
  · rw [if_pos hval] at h
    dsimp only at h
    rcases hc : tryProvider cfg oracle (req.provider.getD cfg.defaultAiProvider) with e | r0 <;>
      rw [hc] at h <;> dsimp only at h
    · by_cases hd : req.provider.getD cfg.defaultAiProvider = cfg.defaultAiProvider
      · rw [if_pos hd] at h
        exact absurd (congrArg Prod.fst h) (by simp)
      · rw [if_neg hd] at h
        have hfst : (generateResponseDefault cfg oracle req.message).1 = .ok r := by
          have := congrArg Prod.fst h
          simpa using this
        rw [generateResponseDefault_valid_eq cfg oracle req.message hval] at hfst
        dsimp only at hfst
        obtain ⟨h1, h2, _⟩ := tryProvider_ok_valid cfg oracle cfg.defaultAiProvider r hfst
        exact ⟨h1, h2⟩
    · have hr : r0 = r := by
        have := congrArg Prod.fst h
        simpa using this
      subst hr
      obtain ⟨h1, h2, _⟩ :=
        tryProvider_ok_valid cfg oracle (req.provider.getD cfg.defaultAiProvider) r0 hc
      exact ⟨h1, h2⟩
  · rw [if_neg hval] at h
    exact absurd (congrArg Prod.fst h) (by simp)

/-! ## Concrete evaluation facts used by the witnesses -/

/-- Evaluation: the message `"explain math"` passes input validation with
score 1 under the default configuration. -/
theorem valid_explain_math :
    (validateContent defaultConfig "explain math").isValid = true ∧
    (validateContent defaultConfig "explain math").safetyScore = 1 :=
  clean_input_valid defaultConfig "explain math" (by decide) (by decide) (by decide)
    (by decide) (by decide) (show (0.7 : ℚ) ≤ 1 by norm_num)

/-- Evaluation: the content `"math"` passes validation with score 1 under
the default configuration. -/
theorem valid_math_word :
    (validateContent defaultConfig "math").isValid = true ∧
    (validateContent defaultConfig "math").safetyScore = 1 :=
  clean_input_valid defaultConfig "math" (by decide) (by decide) (by decide)
    (by decide) (by decide) (show (0.7 : ℚ) ≤ 1 by norm_num)

/-- Evaluation: the content `"zzz"` fails validation (no educational
indicator). -/
theorem invalid_zzz : (validateContent defaultConfig "zzz").isValid = false :=
  nonEducational_invalid defaultConfig "zzz" (by decide)

/-- Evaluation: `applyEducationalContext` leaves `"zzz"` unchanged. -/
theorem applyEducationalContext_zzz : applyEducationalContext "zzz" = "zzz" := by decide

/-- Evaluation: the generated content `"zzz"` fails the output safety
check even after `applyEducationalContext`. -/
theorem invalid_apply_zzz :
    (validateContent defaultConfig (applyEducationalContext "zzz")).isValid = false := by
  rw [applyEducationalContext_zzz]
  exact invalid_zzz

/-- Evaluation: an oracle answering `"math"` on the openai provider yields
a successful attempt with score 1. -/
theorem tryProvider_ok_math (oracle : String → Except String String)
    (h : oracle "openai" = Except.ok "math") :
    tryProvider defaultConfig oracle "openai" =
      .ok { content := "math", provider := "openai", safetyScore := 1 } := by
  have hraw : rawProviderCall oracle "openai" = .ok "math" := by
    unfold rawProviderCall
    simp [h]
  unfold tryProvider
  rw [hraw]
  dsimp only
  have happ : applyEducationalContext "math" = "math" := by decide
  rw [happ, if_pos valid_math_word.1, valid_math_word.2]

/-- Evaluation of the full happy-path chat pipeline on `"explain math"`
with an oracle that always answers `"math"`. -/
theorem sendMessage_math_oracle :
    sendMessage defaultConfig (fun _ => Except.ok "math") "explain math" none =
      { status := 200, success := true, content := some "math", errorMessage := none,
        issues := [], suggestions := [], safetyScore := some 1,
        stored := [{ role := Role.user, content := "explain math", safetyScore := 1 },
                   { role := Role.assistant, content := "math", safetyScore := 1 }],
        providerCalls := ["openai"] } := by
  unfold sendMessage
  rw [if_pos (by decide : schemaOk "explain math" none = true),
    if_pos valid_explain_math.1]
  dsimp only
  have hg : generateResponse defaultConfig (fun _ => Except.ok "math")
      { message := "explain math", provider := none } =
      (Except.ok { content := "math", provider := "openai", safetyScore := 1 }, ["openai"]) := by
    rw [generateResponse_none_eq, generateResponseDefault_valid_eq _ _ _ valid_explain_math.1,
      show defaultConfig.defaultAiProvider = "openai" from rfl, tryProvider_ok_math _ rfl]
  rw [hg]
  dsimp only
  rw [valid_explain_math.2]

/-! ## The claims -/

/-- C1: a generated assistant reply whose computed safety score falls below
`config.minSafetyScore` is never persisted as an assistant message and never
returned with `success:true`; every stored assistant message carries the
score computed after generation, which meets the configured minimum, and
when the call does not succeed it yields an error response (no content,
non-200 status). -/
theorem claim_C1_unsafe_reply_never_surfaced (cfg : Config)
    (oracle : String → Except String String)
    (message : String) (provider : Option String) :
    (∀ m, m ∈ (sendMessage cfg oracle message provider).stored →
      m.role = Role.assistant →
        cfg.minSafetyScore ≤ m.safetyScore ∧
        m.safetyScore = (validateContent cfg m.content).safetyScore ∧
        (validateContent cfg m.content).isValid = true) ∧
    ((sendMessage cfg oracle message provider).success = true →
      ∃ c, (sendMessage cfg oracle message provider).content = some c ∧
        cfg.minSafetyScore ≤ (validateContent cfg c).safetyScore ∧
        (validateContent cfg c).isValid = true) ∧
    ((sendMessage cfg oracle message provider).success = false →
      (sendMessage cfg oracle message provider).content = none ∧
      (sendMessage cfg oracle message provider).status ≠ 200) := by
  unfold sendMessage
  by_cases hs : schemaOk message provider = true
  · rw [if_pos hs]
    by_cases hv : (validateContent cfg message).isValid = true
    · rw [if_pos hv]
      dsimp only
      rcases hg : generateResponse cfg oracle { message := message, provider := provider }
        with ⟨res, tr⟩
      rcases res with e | r <;> dsimp only
      · refine ⟨?_, ?_, ?_⟩
        · intro m hm hrole
          simp only [List.mem_singleton] at hm
          subst hm
          exact absurd hrole (by simp)
        · intro habs
          exact absurd habs (by simp)
        · intro _
          exact ⟨rfl, by simp⟩
      · obtain ⟨hvr, hsr⟩ := generateResponse_ok_valid cfg oracle
          { message := message, provider := provider } r tr hg
        have hmin : cfg.minSafetyScore ≤ r.safetyScore := by
          rw [hsr]
          exact ((validateContent_isValid_iff cfg r.content).mp hvr).1
        refine ⟨?_, ?_, ?_⟩
        · intro m hm hrole
          rcases List.mem_cons.mp hm with h | h
          · subst h
            exact absurd hrole (by simp)
          · simp only [List.mem_singleton] at h
            subst h
            exact ⟨hmin, hsr, hvr⟩
        · intro _
          exact ⟨r.content, rfl,
            hsr ▸ ((validateContent_isValid_iff cfg r.content).mp hvr).1, hvr⟩
        · intro habs
          exact absurd habs (by simp)
    · rw [if_neg hv]
      refine ⟨?_, ?_, ?_⟩
      · intro m hm
        exact absurd hm (by simp)
      · intro habs
        exact absurd habs (by simp)
      · intro _
        exact ⟨rfl, by simp⟩
  · rw [if_neg hs]
    refine ⟨?_, ?_, ?_⟩
    · intro m hm
      exact absurd hm (by simp)
    · intro habs
      exact absurd habs (by simp)
    · intro _
      exact ⟨rfl, by simp⟩

/-- Witness for C1: in a happy-path run the stored assistant message meets
the default minimum score, carries the recomputed score and is valid. -/
theorem claim_C1_witness :
    defaultConfig.minSafetyScore ≤ (1 : ℚ) ∧
    (1 : ℚ) = (validateContent defaultConfig "math").safetyScore ∧
    (validateContent defaultConfig "math").isValid = true := by
  have h := (claim_C1_unsafe_reply_never_surfaced defaultConfig
    (fun _ => Except.ok "math") "explain math" none).1
    { role := Role.assistant, content := "math", safetyScore := 1 }
  rw [sendMessage_math_oracle] at h
  exact h (by simp) rfl

/-- C2: when a request names a provider other than the configured default
and that provider's attempt fails, the orchestrator retries exactly once
against the default provider (attempt list `[p, default]`, result that of
the default attempt); a request against the default provider itself is
never retried and its error is propagated unchanged after the single
attempt. -/
theorem claim_C2_fallback_retry_once (cfg : Config)
    (oracle : String → Except String String) (msg p : String)
    (hval : (validateContent cfg msg).isValid = true)
    (hp : p ≠ cfg.defaultAiProvider)
    (he : ∃ e, tryProvider cfg oracle p = Except.error e) :
    generateResponse cfg oracle { message := msg, provider := some p } =
      (tryProvider cfg oracle cfg.defaultAiProvider, [p, cfg.defaultAiProvider]) ∧
    ∀ e2, tryProvider cfg oracle cfg.defaultAiProvider = Except.error e2 →
      generateResponse cfg oracle { message := msg, provider := some cfg.defaultAiProvider } =
        (Except.error e2, [cfg.defaultAiProvider]) := by
  constructor
  · rw [generateResponse_nondefault_eq cfg oracle msg p hval hp]
    obtain ⟨e, he⟩ := he
    rw [he]
  · intro e2 he2
    rw [generateResponse_defaultCall_eq cfg oracle msg,
      generateResponseDefault_valid_eq cfg oracle msg hval, he2]

/-- Witness for C2: with every provider failing with `"down"`, the
non-default request `anthropic` is retried once against the default
(`openai`) and the default request's error is propagated unchanged. -/
theorem claim_C2_witness :
    generateResponse defaultConfig (fun _ => Except.error "down")
        { message := "explain math", provider := some "anthropic" } =
      (tryProvider defaultConfig (fun _ => Except.error "down") defaultConfig.defaultAiProvider,
       ["anthropic", defaultConfig.defaultAiProvider]) ∧
    generateResponse defaultConfig (fun _ => Except.error "down")
        { message := "explain math", provider := some defaultConfig.defaultAiProvider } =
      (Except.error (GenErr.providerError "down"), [defaultConfig.defaultAiProvider]) := by
  have h := claim_C2_fallback_retry_once defaultConfig (fun _ => Except.error "down")
    "explain math" "anthropic"
    valid_explain_math.1 (by decide) ⟨GenErr.providerError "down", by decide⟩
  exact ⟨h.1, h.2 (GenErr.providerError "down") (by decide)⟩

/-- Counterexample to C3: the requested provider `anthropic` succeeds with
content `"zzz"` that fails the output safety validation, yet
`generateResponse` does not fail — the safety error is caught by the
fallback handler and the call succeeds against the default provider
(attempt list `["anthropic", "openai"]`). -/
theorem claim_C3_counterexample :
    ((fun p => if p = "anthropic" then Except.ok "zzz" else Except.ok "math" :
        String → Except String String) "anthropic") = Except.ok "zzz" ∧
    (validateContent defaultConfig (applyEducationalContext "zzz")).isValid = false ∧
    generateResponse defaultConfig
        (fun p => if p = "anthropic" then Except.ok "zzz" else Except.ok "math" :
          String → Except String String)
        { message := "explain math", provider := some "anthropic" } =
      (Except.ok { content := "math", provider := "openai", safetyScore := 1 },
       ["anthropic", "openai"]) := by
  refine ⟨rfl, invalid_apply_zzz, ?_⟩
  have htpa : tryProvider defaultConfig
      (fun p => if p = "anthropic" then Except.ok "zzz" else Except.ok "math" :
        String → Except String String) "anthropic" =
      .error .responseSafetyFailed :=
    tryProvider_badContent _ _ _ "zzz" (Or.inr (Or.inl rfl)) rfl invalid_apply_zzz
  rw [generateResponse_nondefault_eq _ _ _ _ valid_explain_math.1 (by decide), htpa]
  rw [show defaultConfig.defaultAiProvider = "openai" from rfl,
    tryProvider_ok_math _ rfl]

/-- C3 (amended): when a provider call succeeds but the generated content
fails the output safety validation, the attempt errors with the
response-safety error; if the requested provider is the default this error
is raised to the caller, but if a non-default provider was requested the
error is caught like any provider failure and one fallback attempt against
the default provider decides the call. -/
theorem claim_C3_amended_output_safety (cfg : Config)
    (oracle : String → Except String String) (msg raw p : String)
    (hval : (validateContent cfg msg).isValid = true)
    (hp : p = "openai" ∨ p = "anthropic" ∨ p = "google")
    (hok : oracle p = .ok raw)
    (hbad : (validateContent cfg (applyEducationalContext raw)).isValid = false) :
    (p = cfg.defaultAiProvider →
      generateResponse cfg oracle { message := msg, provider := some p } =
        (Except.error GenErr.responseSafetyFailed, [p])) ∧
    (p ≠ cfg.defaultAiProvider →
      generateResponse cfg oracle { message := msg, provider := some p } =
        (tryProvider cfg oracle cfg.defaultAiProvider, [p, cfg.defaultAiProvider])) := by
  have htp := tryProvider_badContent cfg oracle p raw hp hok hbad
  constructor
  · intro hd
    rw [hd] at htp ⊢
    rw [generateResponse_defaultCall_eq cfg oracle msg,
      generateResponseDefault_valid_eq cfg oracle msg hval, htp]
  · intro hd
    rw [generateResponse_nondefault_eq cfg oracle msg p hval hd, htp]

/-- Witness for the amended C3 at the counterexample inputs: the
non-default request is decided by the fallback attempt. -/
theorem claim_C3_witness :
    generateResponse defaultConfig
        (fun p => if p = "anthropic" then Except.ok "zzz" else Except.ok "math" :
          String → Except String String)
        { message := "explain math", provider := some "anthropic" } =
      (tryProvider defaultConfig
        (fun p => if p = "anthropic" then Except.ok "zzz" else Except.ok "math" :
          String → Except String String) defaultConfig.defaultAiProvider,
       ["anthropic", defaultConfig.defaultAiProvider]) :=
  (claim_C3_amended_output_safety defaultConfig
    (fun p => if p = "anthropic" then Except.ok "zzz" else Except.ok "math")
    "explain math" "zzz" "anthropic"
    valid_explain_math.1 (Or.inr (Or.inl rfl)) rfl invalid_apply_zzz).2 (by decide)

/-- C4: `validateContent` returns `isValid = true` iff the computed score
is at least `config.minSafetyScore` and no issue was recorded, so any
single recorded issue makes the result invalid regardless of the score. -/
theorem claim_C4_isValid_characterisation (cfg : Config) (content : String) :
    (validateContent cfg content).isValid = true ↔
      cfg.minSafetyScore ≤ (validateContent cfg content).safetyScore ∧
      (validateContent cfg content).issues = [] := by
  rw [validateContent_isValid_eq]
  simp [List.isEmpty_iff]

/-- C5: the safety score starts at 1.0 and subtracts exactly 0.5 for a
blocked keyword, 0.3 for missing educational indicators, 0.1 for length
over 2000, 0.2 for a homework pattern and 0.8 for dangerous content, the
result being clamped to the interval [0, 1]. -/
theorem claim_C5_score_formula (cfg : Config) (content : String) :
    (validateContent cfg content).safetyScore =
      mathMax 0 ((1.0 : ℚ)
        - (if (findBlockedKeywords cfg (jsToLower content)) ≠ [] then 0.5 else 0)
        - (if isEducationalContent cfg (jsToLower content) = false then 0.3 else 0)
        - (if 2000 < content.length then 0.1 else 0)
        - (if detectHomeworkPattern content = true then 0.2 else 0)
        - (if detectDangerousContent (jsToLower content) = true then 0.8 else 0)) ∧
    0 ≤ (validateContent cfg content).safetyScore ∧
    (validateContent cfg content).safetyScore ≤ 1 := by
  by_cases h1 : (findBlockedKeywords cfg (jsToLower content)).isEmpty = true <;>
  by_cases h2 : isEducationalContent cfg (jsToLower content) = true <;>
  by_cases h3 : 2000 < content.length <;>
  by_cases h4 : detectHomeworkPattern content = true <;>
  by_cases h5 : detectDangerousContent (jsToLower content) = true <;>
  simp_all [validateContent, mathMax, List.isEmpty_iff] <;> split_ifs <;>
    first
    | omega
    | norm_num at *

/-- C6: any input containing a configured blocked keyword (matched
case-insensitively) is rejected by `validateContent`. -/
theorem claim_C6_blocked_keyword_invalid (cfg : Config) (content : String) (k : String)
    (hk : k ∈ cfg.blockedKeywords)
    (hinc : jsIncludes (jsToLower content) (jsToLower k) = true) :
    (validateContent cfg content).isValid = false := by
  have hmem : jsToLower k ∈ findBlockedKeywords cfg (jsToLower content) := by
    unfold findBlockedKeywords
    rw [List.mem_filter]
    refine ⟨List.mem_dedup.mpr (List.mem_map.mpr ⟨k, hk, rfl⟩), hinc⟩
  have hne : findBlockedKeywords cfg (jsToLower content) ≠ [] := by
    intro h0
    rw [h0] at hmem
    exact (List.not_mem_nil _) hmem
  have hi := issuesOfBlocked_ne_nil cfg content hne
  rcases hb : (validateContent cfg content).isValid with _ | _
  · rfl
  · exact absurd ((validateContent_isValid_iff cfg content).mp hb).2 hi

/-- Witness for C6: the default blocked keyword `"dangerous"` occurs in
`"this is dangerous stuff"`, which is therefore invalid. -/
theorem claim_C6_witness :
    (validateContent defaultConfig "this is dangerous stuff").isValid = false :=
  claim_C6_blocked_keyword_invalid defaultConfig "this is dangerous stuff" "dangerous"
    (by decide) (by decide)

/-- C7: the input "Please give me the answer to my homework due tomorrow"
matches the homework patterns (through the `due tomorrow` urgency cue), its
score drops to 0.8 (below 1), its issues flag the homework pattern and its
suggestions recommend rephrasing toward concept understanding. -/
theorem claim_C7_homework_example :
    detectHomeworkPattern "Please give me the answer to my homework due tomorrow" = true ∧
    searchToks [L "due", Tok.wsPlus, L "tomorrow"]
      (jsToLower "Please give me the answer to my homework due tomorrow").data = true ∧
    (validateContent defaultConfig
      "Please give me the answer to my homework due tomorrow").safetyScore = 0.8 ∧
    (validateContent defaultConfig
      "Please give me the answer to my homework due tomorrow").safetyScore < 1 ∧
    (validateContent defaultConfig
      "Please give me the answer to my homework due tomorrow").issues =
      ["This appears to be a homework question"] ∧
    (validateContent defaultConfig
      "Please give me the answer to my homework due tomorrow").suggestions =
      ["Instead of asking for the answer, ask how to approach the problem or explain concepts you need help understanding."] := by
  have f1 : findBlockedKeywords defaultConfig
      (jsToLower "Please give me the answer to my homework due tomorrow") = [] := by decide
  have f2 : isEducationalContent defaultConfig
      (jsToLower "Please give me the answer to my homework due tomorrow") = true := by decide
  have f4 : detectHomeworkPattern
      "Please give me the answer to my homework due tomorrow" = true := by decide
  have f5 : detectDangerousContent
      (jsToLower "Please give me the answer to my homework due tomorrow") = false := by decide
  have f6 : searchToks [L "due", Tok.wsPlus, L "tomorrow"]
      (jsToLower "Please give me the answer to my homework due tomorrow").data = true := by
    decide
  have f3 : ¬ ("Please give me the answer to my homework due tomorrow".length > 2000) := by
    decide
  refine ⟨f4, f6, ?_, ?_, ?_, ?_⟩
  · rw [validateContent_safetyScore_eq]
    simp [f1, f2, f3, f4, f5, mathMax]
    norm_num
  · rw [validateContent_safetyScore_eq]
    simp [f1, f2, f3, f4, f5, mathMax]
    norm_num
  · rw [validateContent_issues_eq]
    simp [f1, f2, f3, f4, f5]
  · rw [validateContent_suggestions_eq]
    simp [f1, f2, f3, f4, f5]

/-- C8: a schema-valid chat request whose message fails safety validation
is answered with a 400 blocked-content error carrying the recorded issues,
suggestions and score, while no provider is called and nothing is stored. -/
theorem claim_C8_blocked_input (cfg : Config) (oracle : String → Except String String)
    (message : String) (provider : Option String)
    (hs : schemaOk message provider = true)
    (hv : (validateContent cfg message).isValid = false) :
    sendMessage cfg oracle message provider =
      { status := 400, success := false, content := none,
        errorMessage := some "Message blocked by safety filters",
        issues := (validateContent cfg message).issues,
        suggestions := (validateContent cfg message).suggestions,
        safetyScore := some (validateContent cfg message).safetyScore,
        stored := [], providerCalls := [] } := by
  unfold sendMessage
  rw [if_pos hs, if_neg (by rw [hv]; exact Bool.false_ne_true)]

/-- Witness for C8: the non-educational message `"zzz"` is blocked with a
400, no provider call and no stored message. -/
theorem claim_C8_witness :
    sendMessage defaultConfig (fun _ => Except.ok "math") "zzz" none =
      { status := 400, success := false, content := none,
        errorMessage := some "Message blocked by safety filters",
        issues := (validateContent defaultConfig "zzz").issues,
        suggestions := (validateContent defaultConfig "zzz").suggestions,
        safetyScore := some (validateContent defaultConfig "zzz").safetyScore,
        stored := [], providerCalls := [] } :=
  claim_C8_blocked_input defaultConfig (fun _ => Except.ok "math") "zzz" none
    (by decide) invalid_zzz

/-- C9: an issue is recorded exactly when a deduction is applied, so the
issues list is empty iff the score is exactly 1; hence whenever the
configured minimum is at most 1, validity is equivalent to the score being
exactly 1 and the threshold never changes the outcome. -/
theorem claim_C9_threshold_vacuous (cfg : Config) (content : String) :
    ((validateContent cfg content).issues = [] ↔
      (validateContent cfg content).safetyScore = 1) ∧
    (cfg.minSafetyScore ≤ 1 →
      ((validateContent cfg content).isValid = true ↔
        (validateContent cfg content).safetyScore = 1)) := by
  rw [validateContent_isValid_iff, validateContent_issues_eq, validateContent_safetyScore_eq]
  by_cases h1 : (findBlockedKeywords cfg (jsToLower content)).isEmpty = true <;>
  by_cases h2 : isEducationalContent cfg (jsToLower content) = true <;>
  by_cases h3 : 2000 < content.length <;>
  by_cases h4 : detectHomeworkPattern content = true <;>
  by_cases h5 : detectDangerousContent (jsToLower content) = true <;>
  simp_all [mathMax] <;> split_ifs <;>
    first
    | omega
    | norm_num at *

/-- Witness for C9 at the default configuration (minimum 0.7 ≤ 1) and the
message `"zzz"`. -/
theorem claim_C9_witness :
    ((validateContent defaultConfig "zzz").issues = [] ↔
      (validateContent defaultConfig "zzz").safetyScore = 1) ∧
    ((validateContent defaultConfig "zzz").isValid = true ↔
      (validateContent defaultConfig "zzz").safetyScore = 1) := by
  have h := claim_C9_threshold_vacuous defaultConfig "zzz"
  exact ⟨h.1, h.2 (show (0.7 : ℚ) ≤ 1 by norm_num)⟩

/-- C10: every `generateResponse` call performs at most two provider
attempts, and a call whose provider is (or defaults to) the configured
default performs at most one. -/
theorem claim_C10_attempts_bounded (cfg : Config)
    (oracle : String → Except String String) (req : AIRequest) :
    (generateResponse cfg oracle req).2.length ≤ 2 ∧
    (∀ msg : String,
      (generateResponse cfg oracle
        { message := msg, provider := some cfg.defaultAiProvider }).2.length ≤ 1 ∧
      (generateResponse cfg oracle { message := msg, provider := none }).2.length ≤ 1) := by
  have hdef : ∀ msg : String, (generateResponseDefault cfg oracle msg).2.length ≤ 1 := by
    intro msg
    unfold generateResponseDefault
    by_cases hval : (validateContent cfg msg).isValid = true
    · rw [if_pos hval]
      rcases tryProvider cfg oracle cfg.defaultAiProvider with e | r <;> simp
    · rw [if_neg hval]
      simp
  refine ⟨?_, fun msg => ⟨?_, ?_⟩⟩
  · unfold generateResponse
    by_cases hval : (validateContent cfg req.message).isValid = true
    · rw [if_pos hval]
      dsimp only
      rcases htp : tryProvider cfg oracle (req.provider.getD cfg.defaultAiProvider) with e | r <;>
        dsimp only
      · by_cases hd : req.provider.getD cfg.defaultAiProvider = cfg.defaultAiProvider
        · rw [if_pos hd]
          simp
        · rw [if_neg hd]
          have := hdef req.message
          simp
          omega
      · simp
    · rw [if_neg hval]
      simp
  · rw [generateResponse_defaultCall_eq]
    exact hdef msg
  · rw [generateResponse_none_eq]
    exact hdef msg
